import Mathlib

/-!
Verification of the interview-preparation pipeline.

A shallow embedding, in Lean 4, of the application-side logic of the
`adk-interview-prep` repository: the parallel voice-evaluation orchestrator
(`src/agents/enhanced_voice_workflow_agent.py`), the competency evaluator
(`src/agents/competency_agent.py`), the transcription service
(`src/agents/transcription_agent.py`), the speech/delivery coach
(`src/agents/speech_coach_agent.py`), the progress tracker
(`src/agents/interview_manager.py`) and the job analyzer
(`src/core/job_analyzer.py`).

Modelling conventions:
* Remote LLM calls (the ADK runner / Gemini calls) are external collaborators;
  every function that awaits one is modelled as a pure function taking the
  outcome of that call as an argument of type `Except String String`
  (`.error msg` = the awaited call raised, `.ok text` = the final response
  text extracted from the events, after `.strip()`).
* Audio payloads only ever flow into those remote calls; the Python code
  inspects audio bytes exclusively through `len(...)`, so audio is modelled
  by its byte length (a `Nat`).
* Python numbers are modelled by `Int` where the code produces `int`s and by
  `Rat` where it produces `float`s; `round(x, 1)` is modelled exactly
  (round-half-to-even on rationals).
* Python dicts with a fixed key set are modelled as structures; heterogeneous
  results (success dict vs. error dict) as inductive types; a raised
  exception as `Except`.
* The regex-based parsers are embedded as character-list scanners that follow
  `re.search`/`re.findall` semantics (leftmost match, greedy `\s*` and `\d+`,
  lazy `(.*?)` bounded by its lookahead) for the concrete patterns used in
  the source.
-/

/-! ## Python string and number primitives -/

/-- The six ASCII whitespace characters matched by Python's `str.split`,
`str.strip` and the regex class `\s`. -/
def isPySpace (c : Char) : Bool :=
  c = ' ' || c = '\t' || c = '\n' || c = '\r' || c = Char.ofNat 11 || c = Char.ofNat 12

/-- Python substring containment, the expression needle in hay. -/
def pyContains (needle : List Char) : List Char → Bool
  | [] => needle.isEmpty
  | c :: rest => needle.isPrefixOf (c :: rest) || pyContains needle rest

/-- Count of non-overlapping occurrences of a nonempty needle,
scanning left to right (Python str.count). -/
def pyCountAux (needle : List Char) (hay : List Char) : Nat :=
  match hay with
  | [] => 0
  | c :: rest =>
    if h : needle ≠ [] ∧ needle.isPrefixOf (c :: rest) then
      1 + pyCountAux needle (List.drop needle.length (c :: rest))
    else
      pyCountAux needle rest
termination_by hay.length
decreasing_by
  · simp only [List.length_drop, List.length_cons]
    have : needle.length ≠ 0 := by
      intro hlen
      exact h.1 (List.eq_nil_of_length_eq_zero hlen)
    omega
  · simp only [List.length_cons]
    omega

/-- Python hay.count(needle) (for the empty needle Python returns
len(hay) + 1; every needle in the source is a nonempty literal). -/
def pyCount (needle hay : List Char) : Nat :=
  if needle = [] then hay.length + 1 else pyCountAux needle hay

/-- Python s.replace(old, new) for a nonempty old: replaces
non-overlapping occurrences left to right.  (For an empty old this returns s
unchanged; the source only ever replaces nonempty literals.) -/
def pyReplace (old new : List Char) (s : List Char) : List Char :=
  match s with
  | [] => []
  | c :: rest =>
    if h : old ≠ [] ∧ old.isPrefixOf (c :: rest) then
      new ++ pyReplace old new (List.drop old.length (c :: rest))
    else
      c :: pyReplace old new rest
termination_by s.length
decreasing_by
  · simp only [List.length_drop, List.length_cons]
    have : old.length ≠ 0 := by
      intro hlen
      exact h.1 (List.eq_nil_of_length_eq_zero hlen)
    omega
  · simp only [List.length_cons]
    omega

/-- Python s.split() (no argument): split on runs of whitespace,
discarding empty pieces. -/
def pySplitAux : List Char → List Char → List (List Char)
  | [], acc => if acc.isEmpty then [] else [acc.reverse]
  | c :: rest, acc =>
    if isPySpace c then
      if acc.isEmpty then pySplitAux rest [] else acc.reverse :: pySplitAux rest []
    else
      pySplitAux rest (c :: acc)

/-- Python s.split() on a character list. -/
def pySplit (s : List Char) : List (List Char) := pySplitAux s []

/-- Python s.strip() (strip ASCII whitespace from both ends). -/
def pyStrip (s : List Char) : List Char :=
  ((s.dropWhile isPySpace).reverse.dropWhile isPySpace).reverse

/-- Python s.lower() (ASCII case folding, which covers every string the
source lowercases). -/
def pyLower (s : List Char) : List Char := s.map Char.toLower

/-- String-level wrappers. -/
def pySplitStr (s : String) : List String := (pySplit s.data).map List.asString

def pyStripStr (s : String) : String := (pyStrip s.data).asString

def pyLowerStr (s : String) : String := (pyLower s.data).asString

def pyContainsStr (needle hay : String) : Bool := pyContains needle.data hay.data

def pyCountStr (needle hay : String) : Nat := pyCount needle.data hay.data

/-- Python len(s.split()) — the word count the source computes repeatedly. -/
def pyWordCount (s : String) : Nat := (pySplit s.data).length

/-- Python " ".join(xs). -/
def pyJoinSpace (xs : List String) : String := String.intercalate (" ") xs

/-- Value of a digit run (int of a digits capture). -/
def natOfDigits (ds : List Char) : Nat :=
  ds.foldl (fun n c => 10 * n + (c.toNat - 48)) 0

/-- Round-half-to-even to an integer (the rounding Python's `round` uses). -/
def halfEvenInt (y : ℚ) : ℤ :=
  let f := ⌊y⌋
  let r := y - (f : ℚ)
  if r < 1 / 2 then f
  else if 1 / 2 < r then f + 1
  else if f % 2 = 0 then f else f + 1

/-- Python round(x, 1), modelled exactly on rationals. -/
def pyRound1 (x : ℚ) : ℚ := (halfEvenInt (10 * x) : ℚ) / 10

theorem halfEvenInt_intCast (k : ℤ) : halfEvenInt (k : ℚ) = k := by
  unfold halfEvenInt
  have hf : ⌊(k : ℚ)⌋ = k := Int.floor_intCast k
  rw [hf]
  simp

/-- Rounding round(x, 1) is the identity on exact multiples of 1/10 — in
particular on every weighted score the pipeline rounds. -/
theorem pyRound1_tenths (k : ℤ) : pyRound1 ((k : ℚ) / 10) = (k : ℚ) / 10 := by
  unfold pyRound1
  have h10 : (10 : ℚ) * ((k : ℚ) / 10) = (k : ℚ) := by ring
  rw [h10, halfEvenInt_intCast]

/-! ## Regex fragments

The source parses free LLM text with a handful of `re.search`/`re.findall`
patterns of a common shape: a literal label, greedy `\s*`, then either a
greedy number capture or a lazy `(.*?)` capture bounded by a lookahead.
These scanners implement exactly those patterns. -/

theorem length_dropWhile_le (p : Char → Bool) (l : List Char) :
    (l.dropWhile p).length ≤ l.length := by
  induction l with
  | nil => simp [List.dropWhile]
  | cons c rest ih =>
    by_cases h : p c
    · simp only [List.dropWhile_cons_of_pos h, List.length_cons]
      omega
    · simp [List.dropWhile_cons_of_neg h]

/-- Try a match attempt at every position, left to right: the semantics of
`re.search` for a pattern whose leftmost element is a literal. -/
def scanFirst {α : Type} (att : List Char → Option α) : List Char → Option α
  | [] => att []
  | c :: rest =>
    match att (c :: rest) with
    | some v => some v
    | none => scanFirst att rest

/-- Attempt, anchored at the current position: literal `label`, then `\s*`
(greedy), then `(\d+)` (greedy) with, when `allowDecimal`, an optional
`(?:\.\d+)?` continuation — the score patterns of the three parsers. -/
def matchLabelNumAt (label : List Char) (allowDecimal : Bool) (s : List Char) : Option ℚ :=
  if label.isPrefixOf s then
    let r1 := (s.drop label.length).dropWhile isPySpace
    let ds := r1.takeWhile Char.isDigit
    if ds.isEmpty then none
    else
      let ip : ℚ := (natOfDigits ds : ℚ)
      if allowDecimal then
        match r1.drop ds.length with
        | '.' :: r3 =>
          let fs := r3.takeWhile Char.isDigit
          if fs.isEmpty then some ip
          else some (ip + (natOfDigits fs : ℚ) / ((10 : ℚ) ^ fs.length))
        | _ => some ip
      else some ip
  else none

/-- Search re.search(label + digits pattern, s) returning the captured integer
(used with labels such as Score: where the trailing optional /10 does not
affect the capture). -/
def searchLabelNat (label : String) (s : String) : Option Nat :=
  scanFirst
    (fun t =>
      if label.data.isPrefixOf t then
        let r1 := (t.drop label.length).dropWhile isPySpace
        let ds := r1.takeWhile Char.isDigit
        if ds.isEmpty then none else some (natOfDigits ds)
      else none)
    s.data

/-- Search for label, whitespace, then a decimal number, returning the captured
number as a rational (the synthesis score pattern). -/
def searchLabelNum (label : String) (s : String) : Option ℚ :=
  scanFirst (matchLabelNumAt label.data true) s.data

/-- Lazy capture bounded by a lookahead: take characters until the
remaining suffix satisfies stop (the end-of-string alternative is the nil case). -/
def takeUntilPred (stop : List Char → Bool) : List Char → List Char
  | [] => []
  | c :: rest => if stop (c :: rest) then [] else c :: takeUntilPred stop rest

/-- Lookahead: a newline followed by an ASCII capital. -/
def stopNlUpper : List Char → Bool
  | '\n' :: c :: _ => c.isUpper
  | _ => false

/-- Lookahead: a newline, whitespace, then a dash. -/
def stopNlWsDash : List Char → Bool
  | '\n' :: rest =>
    match rest.dropWhile isPySpace with
    | '-' :: _ => true
    | _ => false
  | _ => false

/-- Lookahead: a newline then a lazy dot-run then a colon (without DOTALL the dot stays on one line): a
newline whose following line contains a colon. -/
def stopNlLineColon : List Char → Bool
  | '\n' :: rest => (rest.takeWhile (fun c => c ≠ '\n')).contains ':'
  | _ => false

/-- Lookahead that is a literal string. -/
def stopLit (lit : String) (s : List Char) : Bool := lit.data.isPrefixOf s

/-- Search for a label followed by a lazy section capture bounded by a stop lookahead (with
skipWs := false for the patterns written without whitespace-skip after the label):
the greedy whitespace run consumes maximally — the engine never needs to backtrack it
because the end-of-string alternative always lets the overall match succeed — and the
lazy capture then stops at the first position whose suffix matches the
lookahead. -/
def searchSection (label : String) (skipWs : Bool) (stop : List Char → Bool)
    (s : String) : Option (List Char) :=
  scanFirst
    (fun t =>
      if label.data.isPrefixOf t then
        let r := t.drop label.length
        let r := if skipWs then r.dropWhile isPySpace else r
        some (takeUntilPred stop r)
      else none)
    s.data

/-- Bullet items: re.findall of a dash, whitespace, then a lazy capture bounded by the next dash line, capital line or end —
the item pattern shared by all three parsers. -/
def findListItems (s : List Char) : List (List Char) :=
  match s with
  | [] => []
  | c :: rest =>
    if c = '-' then
      let r := rest.dropWhile isPySpace
      let item := takeUntilPred (fun t => stopNlWsDash t || stopNlUpper t) r
      item :: findListItems (r.drop item.length)
    else
      findListItems rest
termination_by s.length
decreasing_by
  · have h1 : (rest.dropWhile isPySpace).length ≤ rest.length :=
      length_dropWhile_le isPySpace rest
    simp only [List.length_drop, List.length_cons]
    omega
  · simp only [List.length_cons]
    omega

/-- Strip each item and keep the nonempty ones, as in the list comprehensions of the parsers. -/
def cleanItems (items : List (List Char)) : List String :=
  ((items.map pyStrip).filter (fun i => ¬ i.isEmpty)).map List.asString

/-- Extraction of one labelled bullet list: section capture bounded by
`(?=\n[A-Z]|\Z)` followed by the item `findall`, exactly as in
`_parse_evaluation_response`, `_parse_speech_analysis` and
`_parse_synthesis_response`. -/
def extractList (sectionLabel : String) (s : String) : Option (List String) :=
  (searchSection sectionLabel false stopNlUpper s).map
    (fun sec => cleanItems (findListItems sec))

/-- Case-insensitive literal prefix test (for patterns compiled with
`re.IGNORECASE`). -/
def isPrefixOfCI (p s : List Char) : Bool :=
  pyLower p = pyLower (s.take p.length)

/-- First dash on the current line: the lazy scan-to-dash step of the per-axis pattern
(no DOTALL, so the dash must
precede the next newline); returns the suffix after the dash. -/
def afterDashInLine : List Char → Option (List Char)
  | [] => none
  | c :: rest =>
    if c = '\n' then none
    else if c = '-' then some rest
    else afterDashInLine rest

/-- One attempt of the per-axis pattern at the current position
(with IGNORECASE): label, whitespace, score digits, scan to dash, whitespace (which may
cross the newline), then a lazy capture bounded by the next newline or the end. -/
def matchAxisAt (label : List Char) (s : List Char) : Option (Nat × String) :=
  if isPrefixOfCI label s then
    let r1 := (s.drop label.length).dropWhile isPySpace
    let ds := r1.takeWhile Char.isDigit
    if ds.isEmpty then none
    else
      match afterDashInLine (r1.drop ds.length) with
      | none => none
      | some afterDash =>
        let r3 := afterDash.dropWhile isPySpace
        let fb := r3.takeWhile (fun c => c ≠ '\n')
        some (natOfDigits ds, (pyStrip fb).asString)
  else none

/-- Search the whole text for the per-axis pattern. -/
def searchAxis (label : String) (s : String) : Option (Nat × String) :=
  scanFirst (matchAxisAt label.data) s.data

/-! Section: transcription service
(src/agents/transcription_agent.py, class ReliableTranscriptionAgent) -/

/-- Audio metadata computed by ReliableTranscriptionAgent._analyze_audio_data. -/
structure AudioInfo where
  size_bytes : Nat
  size_kb : ℚ
  estimated_duration : ℚ
  mime_type : String
  quality_estimate : String
deriving Repr, DecidableEq

/-- Embedding of ReliableTranscriptionAgent._analyze_audio_data: a
format-specific bytes-per-second heuristic, with sizes and durations rounded
to one decimal. -/
def analyzeAudioData (audio : Nat) (mime : String) : AudioInfo :=
  let dur : ℚ :=
    if mime = "audio/wav" then (audio : ℚ) / 16000
    else if mime = "audio/mp3" then (audio : ℚ) / 2000
    else if mime = "audio/webm" then (audio : ℚ) / 4000
    else (audio : ℚ) / 8000
  { size_bytes := audio
    size_kb := pyRound1 ((audio : ℚ) / 1024)
    estimated_duration := pyRound1 dur
    mime_type := mime
    quality_estimate := if audio > 5000 then "good" else "poor" }

/-- The five boolean checks of _validate_transcription. -/
structure ValidationChecks where
  min_words : Bool
  reasonable_length : Bool
  has_punctuation : Bool
  not_repetitive : Bool
  duration_match : Bool
deriving Repr, DecidableEq

/-- Number of checks that passed: sum(validations.values()). -/
def ValidationChecks.passed (c : ValidationChecks) : Nat :=
  (if c.min_words then 1 else 0) + (if c.reasonable_length then 1 else 0) +
    (if c.has_punctuation then 1 else 0) + (if c.not_repetitive then 1 else 0) +
    (if c.duration_match then 1 else 0)

/-- Result of _validate_transcription: the early-return dict for an empty
transcription, or the dict carrying the five checks. -/
inductive ValidationResult where
  | empty (reason : String)
  | checked (valid : Bool) (confidence : ℚ) (word_count : Nat)
      (estimated_duration : ℚ) (checks : ValidationChecks)
deriving Repr, DecidableEq

/-- Field access for BOTH shapes: the valid flag. -/
def ValidationResult.valid : ValidationResult → Bool
  | .empty _ => false
  | .checked v _ _ _ _ => v

/-- Field access for both shapes: the confidence value. -/
def ValidationResult.confidence : ValidationResult → ℚ
  | .empty _ => 0
  | .checked _ c _ _ _ => c

/-- The five boolean checks of _validate_transcription on a non-empty
transcript: minimum word count, text length in range, punctuation present,
vocabulary diversity above max(1, word_count // 3) distinct lowered words,
and estimated duration above one second. -/
def transcriptionChecks (text : String) (info : AudioInfo) : ValidationChecks :=
  let wordCount := pyWordCount text
  { min_words := decide (wordCount ≥ 3)
    reasonable_length := decide (10 ≤ text.length ∧ text.length ≤ 2000)
    has_punctuation := text.data.any (fun c => c = '.' || c = '!' || c = '?')
    not_repetitive :=
      decide ((pySplit (pyLower text.data)).dedup.length > max 1 (wordCount / 3))
    duration_match := decide (info.estimated_duration > 1) }

/-- Embedding of ReliableTranscriptionAgent._validate_transcription: five
independent boolean checks, confidence = fraction passed, and
valid iff confidence at least 0.6. -/
def validateTranscription (text : String) (info : AudioInfo) : ValidationResult :=
  if pyStripStr text = "" then .empty ("Empty transcription")
  else
    let checks := transcriptionChecks text info
    let confidence : ℚ := (checks.passed : ℚ) / 5
    .checked (decide (confidence ≥ 6 / 10)) confidence (pyWordCount text)
      info.estimated_duration checks

/-- The boilerplate prefixes _basic_text_cleanup strips. -/
def transcriptionArtifacts : List String :=
  ["[TRANSCRIPTION]", "[END TRANSCRIPTION]",
   "**Transcribed text:**", "**Clean transcription:**",
   "Here is the transcription:", "The transcription is:",
   "Transcribed content:", "Audio transcription:",
   "The audio says:", "I hear:", "The speaker says:"]

/-- Embedding of ReliableTranscriptionAgent._basic_text_cleanup: strip,
remove artifacts, collapse whitespace, and append a period to a multi-word
text that does not already end in terminal punctuation. -/
def basicTextCleanup (text : String) : String :=
  if pyStripStr text = "" then ""
  else
    let t := pyStrip text.data
    let t := transcriptionArtifacts.foldl (fun acc a => pyReplace a.data [] acc) t
    let t := pyJoinSpace ((pySplit t).map List.asString)
    if t ≠ "" ∧ ¬(t.endsWith (".") ∨ t.endsWith ("!") ∨ t.endsWith ("?")) then
      if pyWordCount t > 2 then t ++ "." else t
    else t

/-- The dict returned by ReliableTranscriptionAgent.transcribe_audio_bytes:
either the success shape or the failure shape produced by
_generate_error_response. -/
inductive TranscriptionResult where
  | success (transcribed_text : String) (word_count : Nat) (audio_info : AudioInfo)
      (validation : ValidationResult)
  | failed (error : String) (fallback_message : String)
deriving Repr, DecidableEq

/-- Result field status: "success" on the success shape, "failed" otherwise. -/
def TranscriptionResult.status : TranscriptionResult → String
  | .success _ _ _ _ => "success"
  | .failed _ _ => "failed"

/-- Result field transcribed_text (empty string on failure). -/
def TranscriptionResult.transcribed_text : TranscriptionResult → String
  | .success t _ _ _ => t
  | .failed _ _ => ""

/-- Result field word_count (zero on failure). -/
def TranscriptionResult.word_count : TranscriptionResult → Nat
  | .success _ w _ _ => w
  | .failed _ _ => 0

/-- Result field error, as content_analysis reads it: get("error", default). -/
def TranscriptionResult.errorOr (r : TranscriptionResult) (default : String) : String :=
  match r with
  | .success _ _ _ _ => default
  | .failed e _ => e

/-- Embedding of ReliableTranscriptionAgent._generate_error_response: the
fallback message is selected by audio size (in KB) and the error text. -/
def generateErrorResponse (audio : Nat) (errorMsg : String) : TranscriptionResult :=
  let fallbackText :=
    if (audio : ℚ) / 1024 < 1 then
      "Audio recording was too short. Please record for at least 3-5 seconds."
    else if pyContainsStr ("multimodal") (pyLowerStr errorMsg) ||
        pyContainsStr ("audio") (pyLowerStr errorMsg) then
      "Unable to process audio. Please ensure good audio quality and try again."
    else
      "Transcription service temporarily unavailable. Please try again or use text input."
  .failed errorMsg fallbackText

/-- Embedding of ReliableTranscriptionAgent.transcribe_audio_bytes.
The remote multimodal call is an external collaborator, passed as the
outcome remote (.error = the awaited ADK call raised; .ok t = the final
response text, post _extract_final_response, hence already stripped).
The returned Bool records whether the remote call was invoked — the one
effect of the method besides its return value.  Audio under 1000 bytes
raises a ValueError inside the try block, which the function's own handler
turns into _generate_error_response; the same handler catches a remote
failure and an empty transcription. -/
def transcribeAudioBytes (audio : Nat) (mime : String) (remote : Except String String) :
    TranscriptionResult × Bool :=
  if audio < 1000 then
    (generateErrorResponse audio
      ("Audio data too small: " ++ toString audio ++ " bytes. Need at least 1KB."), false)
  else
    match remote with
    | .error e => (generateErrorResponse audio e, true)
    | .ok text =>
      if text = "" then
        (generateErrorResponse audio ("No transcription generated from audio"), true)
      else
        let cleanText := basicTextCleanup text
        let audioInfo := analyzeAudioData audio mime
        (.success cleanText (if cleanText = "" then 0 else pyWordCount cleanText)
          audioInfo (validateTranscription cleanText audioInfo), true)

/-! Section: speech/delivery coach
(src/agents/speech_coach_agent.py, class SpeechCoachAgent) -/

/-- One per-axis entry of detailed_scores. -/
structure AxisScore where
  score : ℤ
  feedback : String
deriving Repr, DecidableEq

/-- The context dict passed into analyze_speech_delivery. -/
structure SpeechContext where
  competency : Option String
  question_type : Option String
  workflow_id : Option String
deriving Repr, DecidableEq

/-- Nested audio_metadata dict of the coach's analysis results. -/
structure DeliveryAudioMeta where
  size_bytes : Nat
  analysis_type : String
  industry : String
  job_title : String
  error : Option String
deriving Repr, DecidableEq

/-- A delivery-analysis dict.  The same structure also models the
orchestrator's slimmer fallback dict
(_generate_fallback_delivery_analysis), whose missing keys appear as none
— every read in the source goes through .get with a default. -/
structure DeliveryAnalysis where
  overall_score : ℤ
  delivery_assessment : String
  detailed_scores : List (String × AxisScore)
  strengths : List String
  improvements : List String
  coaching_tips : List String
  industry_advice : String
  practice_recommendations : Option String
  audio_metadata : Option DeliveryAudioMeta
  context : Option SpeechContext
  workflow_id : Option String
  analysis_type : Option String
deriving Repr, DecidableEq

/-- The six per-axis (key, regex-label) pairs of _parse_speech_analysis. -/
def speechAxisPatterns : List (String × String) :=
  [("pace_rhythm", "Pace & Rhythm:"),
   ("clarity_articulation", "Clarity & Articulation:"),
   ("confidence_authority", "Confidence & Authority:"),
   ("professional_tone", "Professional Tone:"),
   ("energy_engagement", "Energy & Engagement:"),
   ("speech_patterns", "Speech Patterns:")]

/-- Embedding of SpeechCoachAgent._parse_speech_analysis. -/
def parseSpeechAnalysis (industry jobTitle : String) (analysisText : String)
    (audio : Nat) (ctx : Option SpeechContext) : DeliveryAnalysis :=
  let overall : ℤ :=
    match searchLabelNat ("Overall Delivery Score:") analysisText with
    | some n => (n : ℤ)
    | none => 5
  let assessment :=
    match searchSection ("Delivery Assessment:") true stopNlLineColon analysisText with
    | some sec => (pyStrip sec).asString
    | none => ""
  let detailed := speechAxisPatterns.filterMap
    (fun p =>
      match searchAxis p.2 analysisText with
      | some (n, fb) => some (p.1, AxisScore.mk (n : ℤ) fb)
      | none => none)
  let strengths := (extractList ("STRENGTHS:") analysisText).getD []
  let improvements := (extractList ("AREAS FOR IMPROVEMENT:") analysisText).getD []
  let coachingTips := (extractList ("SPECIFIC COACHING TIPS:") analysisText).getD []
  let industryAdvice :=
    match searchSection ("INDUSTRY-SPECIFIC ADVICE:") true
        (stopLit ("\nPRACTICE RECOMMENDATIONS:")) analysisText with
    | some sec => (pyStrip sec).asString
    | none => ""
  let practice :=
    match searchSection ("PRACTICE RECOMMENDATIONS:") true (fun _ => false) analysisText with
    | some sec => (pyStrip sec).asString
    | none => ""
  { overall_score := overall
    delivery_assessment := assessment
    detailed_scores := detailed
    strengths := strengths
    improvements := improvements
    coaching_tips := coachingTips
    industry_advice := industryAdvice
    practice_recommendations := some practice
    audio_metadata := some
      { size_bytes := audio, analysis_type := "speech_delivery",
        industry := industry, job_title := jobTitle, error := none }
    context := ctx
    workflow_id := none
    analysis_type := none }

/-- Python float formatting spec .1f (for the audio size in KB embedded in
fallback messages). -/
def format1 (x : ℚ) : String :=
  let t := halfEvenInt (10 * x)
  toString (t / 10) ++ "." ++ toString (t % 10)

/-- Embedding of SpeechCoachAgent._generate_fallback_analysis: a complete
analysis object with all six axes defaulted to score 5 and an explanatory
message embedding the audio size and the error text. -/
def generateFallbackAnalysis (industry jobTitle : String) (audio : Nat)
    (errorMsg : String) (ctx : Option SpeechContext) : DeliveryAnalysis :=
  { overall_score := 5
    delivery_assessment :=
      "Speech analysis temporarily unavailable. Audio received (" ++
        format1 ((audio : ℚ) / 1024) ++ " KB) but processing failed."
    detailed_scores :=
      [("pace_rhythm", ⟨5, "Unable to analyze pace due to processing error"⟩),
       ("clarity_articulation", ⟨5, "Unable to analyze clarity due to processing error"⟩),
       ("confidence_authority", ⟨5, "Unable to analyze confidence due to processing error"⟩),
       ("professional_tone", ⟨5, "Unable to analyze tone due to processing error"⟩),
       ("energy_engagement", ⟨5, "Unable to analyze energy due to processing error"⟩),
       ("speech_patterns", ⟨5, "Unable to analyze patterns due to processing error"⟩)]
    strengths :=
      ["Audio was successfully recorded",
       "Appropriate recording length for " ++ industry ++ " interview",
       "Attempted to provide comprehensive response"]
    improvements :=
      ["Ensure clear audio quality for optimal analysis",
       "Check microphone settings and environment",
       "Try again with stable internet connection"]
    coaching_tips :=
      ["Practice speaking clearly for " ++ industry ++ " interviews",
       "Record in a quiet environment for best results",
       "Speak at a moderate pace for technical discussions"]
    industry_advice :=
      "For " ++ industry ++
        " interviews, focus on clear, confident communication that demonstrates technical expertise and professional demeanor."
    practice_recommendations := some
      "Practice speaking aloud, record yourself regularly, and focus on clear articulation and confident delivery."
    audio_metadata := some
      { size_bytes := audio, analysis_type := "speech_delivery_fallback",
        industry := industry, job_title := jobTitle, error := some errorMsg }
    context := ctx
    workflow_id := none
    analysis_type := none }

/-- A raised Python exception, as far as the handlers in the source
distinguish them (str(e) is the carried message either way). -/
inductive PyErr where
  | valueError (msg : String)
  | runtime (msg : String)
deriving Repr, DecidableEq

/-- Python str(e) on a caught exception. -/
def PyErr.str : PyErr → String
  | .valueError m => m
  | .runtime m => m

/-- The try block of SpeechCoachAgent.analyze_speech_delivery, before its
own except handler: audio under 1000 bytes raises a ValueError; a failing
remote call or an empty analysis text raise; otherwise the parsed analysis
is returned. -/
def analyzeSpeechDeliveryTry (industry jobTitle : String) (audio : Nat)
    (remote : Except String String) (ctx : Option SpeechContext) :
    Except PyErr DeliveryAnalysis :=
  if audio < 1000 then
    .error (.valueError ("Audio data too small: " ++ toString audio ++ " bytes"))
  else
    match remote with
    | .error e => .error (.runtime e)
    | .ok t =>
      if t = "" then .error (.runtime ("No speech analysis generated"))
      else .ok (parseSpeechAnalysis industry jobTitle t audio ctx)

/-- Embedding of SpeechCoachAgent.analyze_speech_delivery: the whole try
block runs under except Exception, which converts any raised exception —
including the under-1KB ValueError — into the returned fallback analysis.
The method therefore always returns a DeliveryAnalysis and never lets an
exception reach the caller. -/
def analyzeSpeechDelivery (industry jobTitle : String) (audio : Nat)
    (remote : Except String String) (ctx : Option SpeechContext) : DeliveryAnalysis :=
  match analyzeSpeechDeliveryTry industry jobTitle audio remote ctx with
  | .ok a => a
  | .error e => generateFallbackAnalysis industry jobTitle audio e.str ctx

/-! Section: competency evaluator
(src/agents/competency_agent.py, class CompetencyAgent) -/

/-- Case-insensitive variant of searchSection, for the patterns compiled
with IGNORECASE (the STAR components). -/
def searchSectionCI (label : String) (skipWs : Bool) (stop : List Char → Bool)
    (s : String) : Option (List Char) :=
  scanFirst
    (fun t =>
      if isPrefixOfCI label.data t then
        let r := t.drop label.length
        let r := if skipWs then r.dropWhile isPySpace else r
        some (takeUntilPred stop r)
      else none)
    s.data

/-- The four-part STAR breakdown of an evaluation. -/
structure StarAnalysis where
  situation : String
  task : String
  action : String
  result : String
deriving Repr, DecidableEq

/-- A content evaluation dict, as produced by _parse_evaluation_response or
_generate_fallback_evaluation. -/
structure Evaluation where
  score : ℤ
  overall_assessment : String
  star_analysis : StarAnalysis
  strengths : List String
  improvements : List String
  missing_elements : List String
  advice : String
  sample_answer : String
  competency : String
  original_answer : String
deriving Repr, DecidableEq

/-- One STAR component extraction: title-cased label, then the lazy capture
bounded by a dash line, a capital line, or the end (DOTALL + IGNORECASE). -/
def starComponent (label : String) (starText : String) : String :=
  match searchSectionCI label true (fun t => stopNlWsDash t || stopNlUpper t) starText with
  | some sec => (pyStrip sec).asString
  | none => ""

/-- Embedding of CompetencyAgent._parse_evaluation_response: any section
that fails to parse keeps its default (score 5, empty strings and lists).
The parsed score is used as extracted — the source does not clamp it. -/
def parseEvaluationResponse (competency : String) (response originalAnswer : String) :
    Evaluation :=
  let score : ℤ :=
    match searchLabelNat ("Score:") response with
    | some n => (n : ℤ)
    | none => 5
  let assessment :=
    match searchSection ("Overall Assessment:") true stopNlLineColon response with
    | some sec => (pyStrip sec).asString
    | none => ""
  let star :=
    match searchSection ("STAR Method Analysis:") false (stopLit ("\nStrengths:")) response with
    | some sec =>
      let starText := sec.asString
      { situation := starComponent ("Situation:") starText
        task := starComponent ("Task:") starText
        action := starComponent ("Action:") starText
        result := starComponent ("Result:") starText }
    | none => StarAnalysis.mk ("") ("") ("") ("")
  let strengths := (extractList ("Strengths:") response).getD []
  let improvements := (extractList ("Areas for Improvement:") response).getD []
  let missing := (extractList ("Missing Elements:") response).getD []
  let advice :=
    match searchSection ("Advice for Improvement:") true
        (stopLit ("\nSample Strong Answer:")) response with
    | some sec => (pyStrip sec).asString
    | none => ""
  let sample :=
    match searchSection ("Sample Strong Answer:") true (fun _ => false) response with
    | some sec => (pyStrip sec).asString
    | none => ""
  { score := score
    overall_assessment := assessment
    star_analysis := star
    strengths := strengths
    improvements := improvements
    missing_elements := missing
    advice := advice
    sample_answer := sample
    competency := competency
    original_answer := originalAnswer }

/-- The eight STAR-related keywords of the heuristic fallback. -/
def starKeywords : List String :=
  ["situation", "task", "action", "result", "when", "what", "how", "outcome"]

/-- Embedding of CompetencyAgent._generate_fallback_evaluation: base score
5, +1 for a substantial answer (over 100 words), +1 or +2 for STAR keyword
coverage, capped at 8. -/
def generateFallbackEvaluation (competency industry : String) (answer : String) :
    Evaluation :=
  let lower := pyLowerStr answer
  let score0 : ℤ := 5 + (if pyWordCount answer > 100 then 1 else 0)
  let starCount := (starKeywords.filter (fun k => pyContainsStr k lower)).length
  let score1 : ℤ :=
    score0 + (if starCount ≥ 4 then 2 else if starCount ≥ 2 then 1 else 0)
  { score := min score1 8
    overall_assessment :=
      "Your answer demonstrates some understanding of " ++ competency ++
        ". Consider providing more specific details and following the STAR method structure."
    star_analysis :=
      { situation :=
          if pyContainsStr ("situation") lower then "Partially described" else "Could be clearer"
        task :=
          if ["task", "responsible", "role"].any (fun w => pyContainsStr w lower) then
            "Some task description"
          else "Needs more detail"
        action :=
          if ["did", "action", "approach"].any (fun w => pyContainsStr w lower) then
            "Actions mentioned"
          else "Could be more specific"
        result :=
          if ["result", "outcome", "achieved"].any (fun w => pyContainsStr w lower) then
            "Results discussed"
          else "Needs measurable outcomes" }
    strengths :=
      ["Shows understanding of " ++ competency,
       "Provided a relevant example",
       "Demonstrates practical experience"]
    improvements :=
      ["Use more specific details and examples",
       "Follow STAR method structure more clearly",
       "Include quantifiable results and outcomes"]
    missing_elements :=
      ["More detailed situation context",
       "Clearer explanation of specific actions taken",
       "Measurable results and impact"]
    advice :=
      "To improve your " ++ competency ++
        " answers, focus on providing a clear STAR structure with specific details about the situation, your role, the actions you took, and the measurable results achieved."
    sample_answer :=
      "A strong " ++ competency ++ " answer would include: a specific situation from your " ++
        industry ++ " experience, your clear role and responsibilities, detailed actions you took that demonstrate " ++
        competency ++ ", and measurable outcomes that show the impact of your work."
    competency := competency
    original_answer := answer }

/-- Embedding of CompetencyAgent.evaluate_answer: one remote LLM call whose
extracted response text is parsed; if the call raises, the heuristic
fallback evaluation is returned.  (When the events contain no text the
source parses the literal "No response generated", so remote models the
post-extraction text.) -/
def evaluateAnswer (competency industry : String) (answer : String)
    (remote : Except String String) : Evaluation :=
  match remote with
  | .ok response => parseEvaluationResponse competency response answer
  | .error _ => generateFallbackEvaluation competency industry answer

/-! Section: parallel voice-evaluation orchestrator
(src/agents/enhanced_voice_workflow_agent.py) -/

/-- An interview question, as the orchestrator reads it (only the
competency key is accessed outside prompt templating). -/
structure Question where
  competency : Option String
  question : String
deriving Repr, DecidableEq

/-- The transcription_metadata dict _analyze_content attaches to a
successful content evaluation. -/
structure TranscriptionMeta where
  original_text : String
  word_count : Nat
  audio_processed : Bool
  validation : Option ValidationResult
deriving Repr, DecidableEq

/-- Validation attached to a transcription result (.get with default). -/
def TranscriptionResult.validation? : TranscriptionResult → Option ValidationResult
  | .success _ _ _ v => some v
  | .failed _ _ => none

/-- A successful content analysis: the evaluation dict plus the
transcription metadata and the status/workflow keys _analyze_content adds. -/
structure ContentSuccess where
  eval : Evaluation
  meta : TranscriptionMeta
deriving Repr, DecidableEq

/-- Return value of the content branch: the success dict (status
"success") or one of the failure dicts (status "failed"; the gather-level
handler produces one with no stage and no workflow_id). -/
inductive ContentAnalysisResult where
  | success (c : ContentSuccess)
  | failed (stage : Option String) (error : String) (workflow_id : Option String)
deriving Repr, DecidableEq

/-- Embedding of EnhancedVoiceWorkflowAgent._analyze_content: transcription
then content evaluation, with the branch's own except handler converting a
raised evaluation call into the stage "content_analysis" failure dict.  The
transcription sub-call never raises (it catches internally), so it is
passed as its returned result. -/
def analyzeContent (wid : String) (tr : TranscriptionResult)
    (ev : Except String Evaluation) : ContentAnalysisResult :=
  if tr.status ≠ "success" then
    .failed (some ("transcription")) (tr.errorOr ("Transcription failed")) (some wid)
  else
    match ev with
    | .error e => .failed (some ("content_analysis")) e (some wid)
    | .ok evaluation =>
      .success
        { eval := evaluation
          meta :=
            { original_text := tr.transcribed_text
              word_count := pyWordCount tr.transcribed_text
              audio_processed := true
              validation := tr.validation? } }

/-- Embedding of
EnhancedVoiceWorkflowAgent._generate_fallback_delivery_analysis: overall
score 5 but an empty detailed_scores dict (unlike the speech coach's own
fallback).  Default arguments are workflow_id=None and error="". -/
def generateFallbackDeliveryAnalysis (industry : String) (wid : Option String)
    (error : String) : DeliveryAnalysis :=
  { overall_score := 5
    delivery_assessment :=
      if error ≠ "" then "Delivery analysis unavailable. " ++ error
      else "Delivery analysis temporarily unavailable."
    strengths :=
      ["Provided response for " ++ industry ++ " interview",
       "Attempted comprehensive answer"]
    improvements := ["Focus on clear delivery", "Practice professional communication"]
    coaching_tips := ["Practice speaking clearly", "Record yourself for self-assessment"]
    industry_advice :=
      "For " ++ industry ++ " interviews, focus on clear, confident communication."
    detailed_scores := []
    practice_recommendations := none
    audio_metadata := none
    context := none
    workflow_id := wid
    analysis_type := some ("delivery_fallback") }

/-- Embedding of EnhancedVoiceWorkflowAgent._analyze_delivery: builds the
context, calls the speech coach (which never raises — its own handler
returns the coach fallback), and tags the result.  The branch's except
handler, which would substitute the orchestrator fallback, is therefore
unreachable through this call. -/
def analyzeDelivery (industry jobTitle wid : String) (audio : Nat)
    (remote : Except String String) (q : Question) : DeliveryAnalysis :=
  let ctx : SpeechContext :=
    { competency := q.competency
      question_type := some ("interview_response")
      workflow_id := some wid }
  let d := analyzeSpeechDelivery industry jobTitle audio remote (some ctx)
  { d with analysis_type := some ("delivery"), workflow_id := some wid }

/-- Embedding of EnhancedVoiceWorkflowAgent._run_parallel_analysis: the two
branch coroutines are gathered with return_exceptions=True; an exception
from the content branch becomes the stageless failure dict, an exception
from the delivery branch becomes the orchestrator's fallback delivery
object (called with no arguments). -/
def runParallelAnalysis (industry : String)
    (contentBranch : Except String ContentAnalysisResult)
    (deliveryBranch : Except String DeliveryAnalysis) :
    ContentAnalysisResult × DeliveryAnalysis :=
  (match contentBranch with
   | .error e => .failed none e none
   | .ok c => c,
   match deliveryBranch with
   | .error _ => generateFallbackDeliveryAnalysis industry none ("")
   | .ok d => d)

/-- Python str(content_analysis) on a failure dict, as passed to
_generate_error_result (the dict-repr punctuation is elided; no claim
inspects this text). -/
def contentFailureStr (stage : Option String) (error : String)
    (wid : Option String) : String :=
  "status: failed, stage: " ++ stage.getD "" ++ ", error: " ++ error ++
    ", workflow_id: " ++ wid.getD ""

/-- Per-industry component scores recorded in a synthesis result. -/
structure ComponentScores where
  content_score : ℤ
  delivery_score : ℤ
deriving Repr, DecidableEq

/-- A synthesis result dict (parsed or fallback). -/
structure SynthesisResult where
  overall_score : ℚ
  comprehensive_assessment : String
  combined_strengths : List String
  priority_improvements : List String
  industry_feedback : String
  interview_readiness : String
  development_plan : String
  component_scores : ComponentScores
  workflow_id : Option String
deriving Repr, DecidableEq

/-- Embedding of EnhancedVoiceWorkflowAgent._parse_synthesis_response: the
overall score comes from the synthesis text alone (defaulting to 5 when the
pattern is absent); the component scores echo the two branch scores; every
narrative field keeps its default when its pattern is absent. -/
def parseSynthesisResponse (synthesisText : String) (ca : ContentSuccess)
    (da : DeliveryAnalysis) : SynthesisResult :=
  { overall_score := (searchLabelNum ("Overall Interview Score:") synthesisText).getD 5
    comprehensive_assessment :=
      match searchSection ("Comprehensive Assessment:") true
          (stopLit ("\nCOMBINED STRENGTHS:")) synthesisText with
      | some sec => (pyStrip sec).asString
      | none => ""
    combined_strengths := (extractList ("COMBINED STRENGTHS:") synthesisText).getD []
    priority_improvements := (extractList ("PRIORITY IMPROVEMENTS:") synthesisText).getD []
    industry_feedback :=
      match searchSection ("INDUSTRY-SPECIFIC FEEDBACK:") true
          (stopLit ("\nINTERVIEW READINESS:")) synthesisText with
      | some sec => (pyStrip sec).asString
      | none => ""
    interview_readiness :=
      match searchSection ("INTERVIEW READINESS:") true
          (stopLit ("\nDEVELOPMENT PLAN:")) synthesisText with
      | some sec => (pyStrip sec).asString
      | none => ""
    development_plan :=
      match searchSection ("DEVELOPMENT PLAN:") true (fun _ => false) synthesisText with
      | some sec => (pyStrip sec).asString
      | none => ""
    component_scores := ⟨ca.eval.score, da.overall_score⟩
    workflow_id := none }

/-- Embedding of EnhancedVoiceWorkflowAgent._generate_fallback_synthesis: a
deterministic 0.6/0.4 weighted average and templated text taking the first
two content strengths/improvements and the first delivery one. -/
def generateFallbackSynthesis (industry : String) (ca : ContentSuccess)
    (da : DeliveryAnalysis) (wid : String) : SynthesisResult :=
  let contentScore := ca.eval.score
  let deliveryScore := da.overall_score
  { overall_score := (contentScore : ℚ) * (6 / 10) + (deliveryScore : ℚ) * (4 / 10)
    comprehensive_assessment :=
      "Combined content and delivery analysis completed. Content scored " ++
        toString contentScore ++ "/10, delivery scored " ++ toString deliveryScore ++ "/10."
    combined_strengths := ca.eval.strengths.take 2 ++ da.strengths.take 1
    priority_improvements := ca.eval.improvements.take 2 ++ da.improvements.take 1
    industry_feedback :=
      "For " ++ industry ++
        " interviews, continue developing both content knowledge and professional delivery."
    interview_readiness := "Developing - continue practicing both content and delivery"
    development_plan :=
      "Practice regularly with focus on both technical content and clear communication delivery"
    component_scores := ⟨contentScore, deliveryScore⟩
    workflow_id := some wid }

/-- Embedding of EnhancedVoiceWorkflowAgent._synthesize_evaluations: one
further remote call; its extracted text is parsed, and any raised exception
in the try block falls back to the deterministic synthesis. -/
def synthesizeEvaluations (industry : String) (ca : ContentSuccess)
    (da : DeliveryAnalysis) (remote : Except String String) (wid : String) :
    SynthesisResult :=
  match remote with
  | .ok text => { parseSynthesisResponse text ca da with workflow_id := some wid }
  | .error _ => generateFallbackSynthesis industry ca da wid

/-- The content_analysis sub-dict of the compiled result. -/
structure CompiledContent where
  score : ℤ
  assessment : String
  strengths : List String
  improvements : List String
  star_analysis : StarAnalysis
  transcription_metadata : TranscriptionMeta
deriving Repr, DecidableEq

/-- The delivery_analysis sub-dict of the compiled result. -/
structure CompiledDelivery where
  score : ℤ
  assessment : String
  strengths : List String
  improvements : List String
  detailed_scores : List (String × AxisScore)
  coaching_tips : List String
  industry_advice : String
deriving Repr, DecidableEq

/-- The workflow_metadata dict of a successful result. -/
structure WorkflowMetadata where
  parallel_analysis : Bool
  content_and_delivery : Bool
  industry : String
  job_title : String
  audio_processed : Bool
deriving Repr, DecidableEq

/-- The (status "success") result compiled by _compile_enhanced_result. -/
structure EnhancedResult where
  workflow_id : String
  evaluation_type : String
  question : Question
  score : ℚ
  overall_assessment : String
  strengths : List String
  improvements : List String
  industry_feedback : String
  interview_readiness : String
  development_plan : String
  content_analysis : CompiledContent
  delivery_analysis : CompiledDelivery
  competency : Option String
  workflow_metadata : WorkflowMetadata
deriving Repr, DecidableEq

/-- Embedding of EnhancedVoiceWorkflowAgent._compile_enhanced_result. -/
def compileEnhancedResult (industry jobTitle wid : String) (ca : ContentSuccess)
    (da : DeliveryAnalysis) (syn : SynthesisResult) (q : Question) : EnhancedResult :=
  { workflow_id := wid
    evaluation_type := "enhanced_voice_analysis"
    question := q
    score := syn.overall_score
    overall_assessment := syn.comprehensive_assessment
    strengths := syn.combined_strengths
    improvements := syn.priority_improvements
    industry_feedback := syn.industry_feedback
    interview_readiness := syn.interview_readiness
    development_plan := syn.development_plan
    content_analysis :=
      { score := ca.eval.score
        assessment := ca.eval.overall_assessment
        strengths := ca.eval.strengths
        improvements := ca.eval.improvements
        star_analysis := ca.eval.star_analysis
        transcription_metadata := ca.meta }
    delivery_analysis :=
      { score := da.overall_score
        assessment := da.delivery_assessment
        strengths := da.strengths
        improvements := da.improvements
        detailed_scores := da.detailed_scores
        coaching_tips := da.coaching_tips
        industry_advice := da.industry_advice }
    competency := q.competency
    workflow_metadata :=
      { parallel_analysis := true
        content_and_delivery := true
        industry := industry
        job_title := jobTitle
        audio_processed := true } }

/-- The (status "failed") result of _generate_error_result. -/
structure ErrorResult where
  workflow_id : String
  stage : String
  error : String
  evaluation_type : String
  score : ℚ
  overall_assessment : String
  strengths : List String
  improvements : List String
  error_industry : String
deriving Repr, DecidableEq

/-- Embedding of EnhancedVoiceWorkflowAgent._generate_error_result: a
status "failed" result with score 0 and an explanatory message. -/
def generateErrorResult (industry wid stage errorDetails : String) : ErrorResult :=
  { workflow_id := wid
    stage := stage
    error := errorDetails
    evaluation_type := "enhanced_voice_analysis_failed"
    score := 0
    overall_assessment := "Analysis failed at " ++ stage ++ " stage. Please try again."
    strengths := []
    improvements :=
      ["Try recording again with clear audio", "Ensure stable internet connection"]
    error_industry := industry }

/-- The value process_voice_question_response hands back: the success shape
or the error shape (the Python method returns one dict or the other). -/
inductive WorkflowResult where
  | ok (r : EnhancedResult)
  | failed (e : ErrorResult)
deriving Repr, DecidableEq

/-- Result key status across both shapes. -/
def WorkflowResult.status : WorkflowResult → String
  | .ok _ => "success"
  | .failed _ => "failed"

/-- Result key score across both shapes. -/
def WorkflowResult.score : WorkflowResult → ℚ
  | .ok r => r.score
  | .failed e => e.score

/-- Result key content_analysis (absent on the error shape). -/
def WorkflowResult.contentAnalysis? : WorkflowResult → Option CompiledContent
  | .ok r => some r.content_analysis
  | .failed _ => none

/-- Result key delivery_analysis (absent on the error shape). -/
def WorkflowResult.deliveryAnalysis? : WorkflowResult → Option CompiledDelivery
  | .ok r => some r.delivery_analysis
  | .failed _ => none

/-- Embedding of EnhancedVoiceWorkflowAgent.process_voice_question_response.
The inputs are the outcomes of the two gathered branch coroutines and of the
synthesis call; every local step is total, so the outer except handler
(which would return a workflow_error result) has nothing left to catch and
no exception reaches the caller.  Gate: a content result whose status is not
"success" short-circuits to the error result; a delivery result with a
negative overall score is replaced by the orchestrator fallback. -/
def processVoiceQuestionResponse (industry jobTitle : String) (q : Question)
    (wid : String) (contentBranch : Except String ContentAnalysisResult)
    (deliveryBranch : Except String DeliveryAnalysis)
    (synthesisCall : Except String String) : WorkflowResult :=
  let pa := runParallelAnalysis industry contentBranch deliveryBranch
  match pa.1 with
  | .failed stage err fw =>
    .failed (generateErrorResult industry wid ("content_analysis")
      (contentFailureStr stage err fw))
  | .success ca =>
    let da := if pa.2.overall_score < 0 then
        generateFallbackDeliveryAnalysis industry none ("")
      else pa.2
    let syn := synthesizeEvaluations industry ca da synthesisCall wid
    .ok (compileEnhancedResult industry jobTitle wid ca da syn q)

/-! Section: streamlined workflow
(src/agents/enhanced_voice_workflow_agent.py, class
StreamlinedEnhancedWorkflow) -/

/-- The enhanced_analysis sub-dict _combine_evaluations adds. -/
structure EnhancedAnalysisInfo where
  content_analysis_available : Bool
  delivery_analysis_available : Bool
  content_score : ℤ
  delivery_score : ℤ
  weighted_overall : ℚ
  delivery_strengths : List String
  delivery_improvements : List String
  speaking_tips : List String
  industry_delivery_advice : String
deriving Repr, DecidableEq

/-- The combined evaluation: content_eval.copy() updated with the weighted
score, merged assessment/lists and the enhanced_analysis sub-dict. -/
structure CombinedEval where
  base : Evaluation
  score : ℚ
  overall_assessment : String
  enhanced_analysis : EnhancedAnalysisInfo
  strengths : List String
  improvements : List String
deriving Repr, DecidableEq

/-- Embedding of StreamlinedEnhancedWorkflow._combine_evaluations: an
industry-weighted overall score (0.7/0.3 for technology, finance and
healthcare; 0.4/0.6 for sales and marketing; 0.6/0.4 otherwise), rounded to
one decimal, plus merged strength/improvement lists. -/
def combineEvaluations (jobIndustry : String) (c : Evaluation)
    (d : DeliveryAnalysis) : CombinedEval :=
  let contentScore := c.score
  let deliveryScore := d.overall_score
  let overall : ℚ :=
    if ["technology", "finance", "healthcare"].contains jobIndustry then
      (contentScore : ℚ) * (7 / 10) + (deliveryScore : ℚ) * (3 / 10)
    else if ["sales", "marketing"].contains jobIndustry then
      (contentScore : ℚ) * (4 / 10) + (deliveryScore : ℚ) * (6 / 10)
    else
      (contentScore : ℚ) * (6 / 10) + (deliveryScore : ℚ) * (4 / 10)
  { base := c
    score := pyRound1 overall
    overall_assessment :=
      "Enhanced analysis: Content " ++ toString contentScore ++ "/10, Delivery " ++
        toString deliveryScore ++ "/10. " ++ c.overall_assessment
    enhanced_analysis :=
      { content_analysis_available := true
        delivery_analysis_available := true
        content_score := contentScore
        delivery_score := deliveryScore
        weighted_overall := overall
        delivery_strengths := d.strengths
        delivery_improvements := d.improvements
        speaking_tips := d.coaching_tips
        industry_delivery_advice := d.industry_advice }
    strengths :=
      c.strengths.take 2 ++ (d.strengths.take 1).map (fun s => "Speaking: " ++ s)
    improvements :=
      c.improvements.take 2 ++ (d.improvements.take 1).map (fun i => "Delivery: " ++ i) }

/-! Section: progress tracking
(src/agents/interview_manager.py, InterviewManager.get_progress_summary) -/

/-- One progress entry appended per evaluated answer. -/
structure ProgressEntry where
  score : ℚ
  timestamp : ℚ
  notes : String
deriving Repr, DecidableEq

/-- Per-competency block of the progress summary. -/
structure CompetencyStats where
  average_score : ℚ
  attempts : Nat
  latest_score : ℚ
  best_score : ℚ
  improvement : ℚ
deriving Repr, DecidableEq

/-- The dict returned by get_progress_summary. -/
structure ProgressSummary where
  competencies : List (String × CompetencyStats)
  total_attempts : Nat
  overall_trend : String
deriving Repr, DecidableEq

/-- Statistics over one competency's (nonempty) score list: average,
attempts, last score, max score, last minus first when there are at least
two attempts. -/
def competencyStats (scores : List ℚ) : CompetencyStats :=
  { average_score := scores.sum / (scores.length : ℚ)
    attempts := scores.length
    latest_score := scores.getLastD 0
    best_score := scores.foldl max (scores.headD 0)
    improvement :=
      if scores.length > 1 then scores.getLastD 0 - scores.headD 0 else 0 }

/-- Embedding of InterviewManager.get_progress_summary.  The progress store
(a defaultdict of entry lists, iterated in insertion order) is the
argument.  Competencies with an empty entry list are skipped; those with at
least two entries contribute their last and first scores to the trend
averages; the trend defaults to "no_data" only when no competency
contributed. -/
def getProgressSummary (progress : List (String × List ProgressEntry)) :
    ProgressSummary :=
  let nonEmpty := progress.filter (fun p => ¬ p.2.isEmpty)
  let comps := nonEmpty.map
    (fun p => (p.1, competencyStats (p.2.map ProgressEntry.score)))
  let totalAttempts := (nonEmpty.map (fun p => p.2.length)).sum
  let qualifying := nonEmpty.filter (fun p => p.2.length ≥ 2)
  let allRecent := qualifying.map (fun p => (p.2.map ProgressEntry.score).getLastD 0)
  let allEarly := qualifying.map (fun p => (p.2.map ProgressEntry.score).headD 0)
  let trend :=
    if ¬allRecent.isEmpty ∧ ¬allEarly.isEmpty then
      let recentAvg := allRecent.sum / (allRecent.length : ℚ)
      let earlyAvg := allEarly.sum / (allEarly.length : ℚ)
      if recentAvg > earlyAvg + 1 / 2 then "improving"
      else if recentAvg < earlyAvg - 1 / 2 then "declining"
      else "stable"
    else "no_data"
  { competencies := comps
    total_attempts := totalAttempts
    overall_trend := trend }

/-! Section: job analyzer
(src/core/job_analyzer.py, JobAnalyzer._extract_competencies) -/

/-- The fixed competency-to-keywords table, in dict insertion order. -/
def competencyKeywords : List (String × List String) :=
  [("Problem Solving", ["problem", "solve", "troubleshoot", "debug", "resolve", "solution"]),
   ("Technical Expertise", ["technical", "development", "programming", "coding", "engineering"]),
   ("Project Management", ["project", "manage", "timeline", "deadline", "coordinate", "plan"]),
   ("Analytical Thinking", ["analyze", "data", "insight", "research", "evaluate", "assess"]),
   ("Attention to Detail", ["detail", "quality", "accuracy", "precision", "thorough", "careful"]),
   ("Written Communication", ["communication", "document", "write", "report", "present"]),
   ("Leadership", ["lead", "manage", "mentor", "guide", "direct", "supervise"]),
   ("Teamwork", ["team", "collaborate", "cooperation", "work with others"])]

/-- The three essential competencies force-included by the analyzer. -/
def essentialCompetencies : List String :=
  ["Problem Solving", "Technical Expertise", "Analytical Thinking"]

/-- The AI-extracted fields _extract_competencies reads (the remaining JSON
keys are not consulted by it). -/
structure AiAnalysis where
  responsibilities : List String
  requirements : List String
  skills : List String
deriving Repr, DecidableEq

/-- Keyword-occurrence score of one competency over the lowered raw text
and the lowered joined AI fields, mirroring the two accumulation loops. -/
def competencyScore (textLower aiText : List Char) (keywords : List String) : Nat :=
  (keywords.map
    (fun k => if pyContains k.data textLower then pyCount k.data textLower else 0)).sum +
  (keywords.map
    (fun k => if pyContains k.data aiText then pyCount k.data aiText else 0)).sum

/-- Insert into a descending-by-count list, after entries of greater or
equal count: with left-to-right insertion this reproduces the stable
descending sort of Counter.most_common. -/
def insertDesc (x : String × Nat) : List (String × Nat) → List (String × Nat)
  | [] => [x]
  | y :: ys => if x.2 > y.2 then x :: y :: ys else y :: insertDesc x ys

/-- Stable descending sort by count (Counter.most_common over entries in
insertion order). -/
def mostCommonSort (l : List (String × Nat)) : List (String × Nat) :=
  l.foldl (fun acc x => insertDesc x acc) []

/-- Append each essential competency absent from the selection, in order
(the mutation loop over essential at the end of _extract_competencies). -/
def addEssentials (sel : List String) : List String :=
  essentialCompetencies.foldl (fun acc e => if acc.contains e then acc else acc ++ [e]) sel

/-- Embedding of JobAnalyzer._extract_competencies: score the eight fixed
competencies, keep the positively scored ones sorted by score (stable), take
the top six, force-include the three essentials, and truncate to eight. -/
def extractCompetencies (text : String) (ai : AiAnalysis) : List String :=
  let textLower := pyLower text.data
  let aiText :=
    pyLower (pyJoinSpace (ai.responsibilities ++ ai.requirements ++ ai.skills)).data
  let scored := competencyKeywords.map
    (fun p => (p.1, competencyScore textLower aiText p.2))
  let positives := scored.filter (fun p => p.2 > 0)
  let selected := ((mostCommonSort positives).map Prod.fst).take 6
  (addEssentials selected).take 8

/-! Section: sample values used by concrete instances -/

/-- A content evaluation with the given score and lists (remaining fields
blank), for concrete instances. -/
def mkEval (score : ℤ) (strengths improvements : List String) : Evaluation :=
  { score := score
    overall_assessment := ""
    star_analysis := ⟨"", "", "", ""⟩
    strengths := strengths
    improvements := improvements
    missing_elements := []
    advice := ""
    sample_answer := ""
    competency := "Problem Solving"
    original_answer := "" }

/-- A successful content analysis with the given score. -/
def mkContent (score : ℤ) : ContentSuccess :=
  ⟨mkEval score [] [], ⟨"", 0, true, none⟩⟩

/-- A delivery analysis with the given overall score (everything else
empty). -/
def mkDelivery (score : ℤ) : DeliveryAnalysis :=
  { overall_score := score
    delivery_assessment := ""
    detailed_scores := []
    strengths := []
    improvements := []
    coaching_tips := []
    industry_advice := ""
    practice_recommendations := none
    audio_metadata := none
    context := none
    workflow_id := none
    analysis_type := none }

/-- A sample question. -/
def sampleQuestion : Question :=
  ⟨some ("Problem Solving"), "Tell me about a problem you solved."⟩

/-! Section: claims -/

/-- C1: for every invocation of process_voice_question_response, if the
delivery branch raises, the result still has status "success", a populated
content_analysis (carrying the evaluation's score, assessment, lists, STAR
breakdown and transcription metadata) and a non-null substituted fallback
delivery_analysis; if the content branch raises, or reports failure
(status not "success"), the result has status "failed" and score 0
regardless of the delivery branch's outcome.  The embedding of the
orchestrator is a total function into WorkflowResult, so no exception from
either branch reaches the caller. -/
theorem C1_orchestrator_robustness :
    (∀ (industry jobTitle : String) (q : Question) (wid : String) (ca : ContentSuccess)
        (e : String) (sc : Except String String),
      (processVoiceQuestionResponse industry jobTitle q wid (Except.ok (.success ca))
          (Except.error e) sc).status = "success" ∧
      (processVoiceQuestionResponse industry jobTitle q wid (Except.ok (.success ca))
          (Except.error e) sc).contentAnalysis? = some
        { score := ca.eval.score
          assessment := ca.eval.overall_assessment
          strengths := ca.eval.strengths
          improvements := ca.eval.improvements
          star_analysis := ca.eval.star_analysis
          transcription_metadata := ca.meta } ∧
      (processVoiceQuestionResponse industry jobTitle q wid (Except.ok (.success ca))
          (Except.error e) sc).deliveryAnalysis? = some
        { score := 5
          assessment := "Delivery analysis temporarily unavailable."
          strengths :=
            ["Provided response for " ++ industry ++ " interview",
             "Attempted comprehensive answer"]
          improvements := ["Focus on clear delivery", "Practice professional communication"]
          detailed_scores := []
          coaching_tips := ["Practice speaking clearly", "Record yourself for self-assessment"]
          industry_advice :=
            "For " ++ industry ++ " interviews, focus on clear, confident communication." }) ∧
    (∀ (industry jobTitle : String) (q : Question) (wid e : String)
        (db : Except String DeliveryAnalysis) (sc : Except String String),
      (processVoiceQuestionResponse industry jobTitle q wid (Except.error e) db sc).status =
          "failed" ∧
      (processVoiceQuestionResponse industry jobTitle q wid (Except.error e) db sc).score = 0) ∧
    (∀ (industry jobTitle : String) (q : Question) (wid : String) (stage : Option String)
        (err : String) (fw : Option String) (db : Except String DeliveryAnalysis)
        (sc : Except String String),
      (processVoiceQuestionResponse industry jobTitle q wid
          (Except.ok (.failed stage err fw)) db sc).status = "failed" ∧
      (processVoiceQuestionResponse industry jobTitle q wid
          (Except.ok (.failed stage err fw)) db sc).score = 0) := by
  refine ⟨fun industry jobTitle q wid ca e sc => ⟨rfl, rfl, rfl⟩,
    fun industry jobTitle q wid e db sc => ⟨rfl, rfl⟩,
    fun industry jobTitle q wid stage err fw db sc => ⟨rfl, rfl⟩⟩

/-- C3: when the synthesis call raises, _synthesize_evaluations returns the
deterministic fallback, whose overall score is exactly
content*0.6 + delivery*0.4 and whose combined strengths (resp. priority
improvements) are the first two content strengths (resp. improvements)
followed by the first delivery one. -/
theorem C3_fallback_synthesis :
    ∀ (industry : String) (ca : ContentSuccess) (da : DeliveryAnalysis) (wid e : String),
      synthesizeEvaluations industry ca da (Except.error e) wid =
        generateFallbackSynthesis industry ca da wid ∧
      (generateFallbackSynthesis industry ca da wid).overall_score =
        (ca.eval.score : ℚ) * (6 / 10) + (da.overall_score : ℚ) * (4 / 10) ∧
      (generateFallbackSynthesis industry ca da wid).combined_strengths =
        ca.eval.strengths.take 2 ++ da.strengths.take 1 ∧
      (generateFallbackSynthesis industry ca da wid).priority_improvements =
        ca.eval.improvements.take 2 ++ da.improvements.take 1 := by
  intro industry ca da wid e
  exact ⟨rfl, rfl, rfl, rfl⟩

/-- C10: the orchestrator's own fallback delivery object has overall score
5 but an empty detailed_scores dict, so the compiled result built from it
exposes no per-axis scores — unlike the speech coach's fallback, which
populates all six axes with score 5. -/
theorem C10_fallback_delivery_shape :
    (∀ (industry : String) (wid : Option String) (err : String),
      (generateFallbackDeliveryAnalysis industry wid err).overall_score = 5 ∧
      (generateFallbackDeliveryAnalysis industry wid err).detailed_scores = []) ∧
    (∀ (industry jobTitle : String) (q : Question) (wid : String) (ca : ContentSuccess)
        (e : String) (sc : Except String String),
      ((processVoiceQuestionResponse industry jobTitle q wid (Except.ok (.success ca))
          (Except.error e) sc).deliveryAnalysis?).map CompiledDelivery.detailed_scores =
        some []) ∧
    (∀ (industry jobTitle : String) (audio : Nat) (errMsg : String)
        (ctx : Option SpeechContext),
      (generateFallbackAnalysis industry jobTitle audio errMsg ctx).overall_score = 5 ∧
      (generateFallbackAnalysis industry jobTitle audio errMsg ctx).detailed_scores.map
          (fun p => (p.1, p.2.score)) =
        [("pace_rhythm", 5), ("clarity_articulation", 5), ("confidence_authority", 5),
         ("professional_tone", 5), ("energy_engagement", 5), ("speech_patterns", 5)]) := by
  refine ⟨fun industry wid err => ⟨rfl, rfl⟩,
    fun industry jobTitle q wid ca e sc => rfl,
    fun industry jobTitle audio errMsg ctx => ⟨rfl, rfl⟩⟩

/-- The content weight applied by _combine_evaluations per industry (the
delivery weight is its complement). -/
def contentWeight (industry : String) : ℚ :=
  if ["technology", "finance", "healthcare"].contains industry then 7 / 10
  else if ["sales", "marketing"].contains industry then 4 / 10
  else 6 / 10

/-- C2 counterexample: on the LLM-parse path the overall score of a
synthesized evaluation is whatever number the synthesis text states and is
not a convex combination of the component scores.  With content 8 and
delivery 4 in the technology industry, the synthesis text stating 2/10
yields overall score 2, while the claimed 0.7/0.3 combination is 6.8. -/
theorem C2_counterexample :
    (synthesizeEvaluations ("technology") (mkContent 8) (mkDelivery 4)
        (Except.ok ("Overall Interview Score: 2/10")) ("wf1")).overall_score = 2 ∧
    (synthesizeEvaluations ("technology") (mkContent 8) (mkDelivery 4)
        (Except.ok ("Overall Interview Score: 2/10")) ("wf1")).component_scores = ⟨8, 4⟩ ∧
    (processVoiceQuestionResponse ("technology") ("Engineer") sampleQuestion ("wf1")
        (Except.ok (.success (mkContent 8))) (Except.ok (mkDelivery 4))
        (Except.ok ("Overall Interview Score: 2/10"))).score = 2 ∧
    (2 : ℚ) ≠ (8 : ℚ) * (7 / 10) + (4 : ℚ) * (3 / 10) := by
  refine ⟨?_, rfl, ?_, by norm_num⟩
  · show ((2 : ℕ) : ℚ) = 2
    norm_num
  · show ((2 : ℕ) : ℚ) = 2
    norm_num

/-- C2 (amended): on the deterministic combination paths the overall score
is a true convex combination of the component scores — _combine_evaluations
uses industry weights (0.7/0.3 technology, finance, healthcare; 0.4/0.6
sales, marketing; 0.6/0.4 otherwise) whose one-decimal rounding is exact on
integer component scores, and the synthesis fallback uses 0.6/0.4; in
particular technology with content 8 and delivery 4 gives 6.8.  On the
LLM-parse path the overall score is taken from the synthesis text (default
5) and is not constrained by the weights. -/
theorem C2_weighted_combination :
    (∀ (industry : String) (c : Evaluation) (d : DeliveryAnalysis),
      (combineEvaluations industry c d).score =
        contentWeight industry * (c.score : ℚ) +
          (1 - contentWeight industry) * (d.overall_score : ℚ) ∧
      0 ≤ contentWeight industry ∧ contentWeight industry ≤ 1) ∧
    (combineEvaluations ("technology") (mkEval 8 [] []) (mkDelivery 4)).score = 68 / 10 ∧
    (∀ (industry : String) (ca : ContentSuccess) (da : DeliveryAnalysis) (wid : String),
      (generateFallbackSynthesis industry ca da wid).overall_score =
        (6 / 10) * (ca.eval.score : ℚ) + (1 - 6 / 10) * (da.overall_score : ℚ)) := by
  refine ⟨?_, ?_, ?_⟩
  case refine_2 =>
    show pyRound1 (((8 : ℤ) : ℚ) * (7 / 10) + ((4 : ℤ) : ℚ) * (3 / 10)) = 68 / 10
    have h : ((8 : ℤ) : ℚ) * (7 / 10) + ((4 : ℤ) : ℚ) * (3 / 10) = ((68 : ℤ) : ℚ) / 10 := by
      push_cast
      ring
    rw [h, pyRound1_tenths]
    norm_num
  · intro industry c d
    refine ⟨?_, ?_, ?_⟩
    · show pyRound1 _ = _
      unfold contentWeight
      split_ifs with h1 h2
      · have h : (c.score : ℚ) * (7 / 10) + (d.overall_score : ℚ) * (3 / 10) =
            ((7 * c.score + 3 * d.overall_score : ℤ) : ℚ) / 10 := by
          push_cast
          ring
        rw [h, pyRound1_tenths]
        push_cast
        ring
      · have h : (c.score : ℚ) * (4 / 10) + (d.overall_score : ℚ) * (6 / 10) =
            ((4 * c.score + 6 * d.overall_score : ℤ) : ℚ) / 10 := by
          push_cast
          ring
        rw [h, pyRound1_tenths]
        push_cast
        ring
      · have h : (c.score : ℚ) * (6 / 10) + (d.overall_score : ℚ) * (4 / 10) =
            ((6 * c.score + 4 * d.overall_score : ℤ) : ℚ) / 10 := by
          push_cast
          ring
        rw [h, pyRound1_tenths]
        push_cast
        ring
    · unfold contentWeight
      split_ifs <;> norm_num
    · unfold contentWeight
      split_ifs <;> norm_num
  · intro industry ca da wid
    show (ca.eval.score : ℚ) * (6 / 10) + (da.overall_score : ℚ) * (4 / 10) = _
    ring

/-- C4 counterexample: the parse path of evaluate_answer does not clamp the
extracted score — a response stating 15/10 yields score 15, outside [0,10]. -/
theorem C4_counterexample :
    (parseEvaluationResponse ("Problem Solving") ("Score: 15/10") ("answer")).score = 15 ∧
    ¬((parseEvaluationResponse ("Problem Solving") ("Score: 15/10") ("answer")).score ≤ 10) := by
  exact ⟨by decide, by decide⟩

/-- C4 (amended): the heuristic fallback score always lies in [5,8] (hence
in [0,10]), and an unparsed score defaults to 5; but a parsed score equals
whatever integer the response states, unclamped, so the [0,10] bound on the
parse path holds only when the response states a score in range. -/
theorem C4_score_paths :
    (∀ (competency industry answer : String),
      0 ≤ (generateFallbackEvaluation competency industry answer).score ∧
      (generateFallbackEvaluation competency industry answer).score ≤ 10 ∧
      5 ≤ (generateFallbackEvaluation competency industry answer).score ∧
      (generateFallbackEvaluation competency industry answer).score ≤ 8) ∧
    (∀ (competency response answer : String),
      searchLabelNat ("Score:") response = none →
        (parseEvaluationResponse competency response answer).score = 5) ∧
    (∀ (competency response answer : String) (n : ℕ),
      searchLabelNat ("Score:") response = some n →
        (parseEvaluationResponse competency response answer).score = (n : ℤ)) := by
  refine ⟨?_, ?_, ?_⟩
  · intro competency industry answer
    have h : (generateFallbackEvaluation competency industry answer).score =
        min (5 + (if pyWordCount answer > 100 then (1 : ℤ) else 0) +
          (if (starKeywords.filter
                (fun k => pyContainsStr k (pyLowerStr answer))).length ≥ 4 then (2 : ℤ)
           else if (starKeywords.filter
                (fun k => pyContainsStr k (pyLowerStr answer))).length ≥ 2 then 1
           else 0)) 8 := rfl
    refine ⟨?_, ?_, ?_, ?_⟩ <;> rw [h] <;> split_ifs <;> omega
  · intro competency response answer hnone
    have h : (parseEvaluationResponse competency response answer).score =
        (match searchLabelNat ("Score:") response with
         | some n => (n : ℤ)
         | none => 5) := rfl
    rw [h, hnone]
  · intro competency response answer n hsome
    have h : (parseEvaluationResponse competency response answer).score =
        (match searchLabelNat ("Score:") response with
         | some n => (n : ℤ)
         | none => 5) := rfl
    rw [h, hsome]

/-- Witness for C4_score_paths at concrete inputs: a response with no score
line parses to the default 5, a response stating 7 parses to 7, and the
fallback on a short answer stays within bounds. -/
theorem C4_score_paths_witness :
    (0 ≤ (generateFallbackEvaluation ("Problem Solving") ("technology") ("a short answer")).score ∧
      (generateFallbackEvaluation ("Problem Solving") ("technology") ("a short answer")).score ≤ 10 ∧
      5 ≤ (generateFallbackEvaluation ("Problem Solving") ("technology") ("a short answer")).score ∧
      (generateFallbackEvaluation ("Problem Solving") ("technology") ("a short answer")).score ≤ 8) ∧
    (parseEvaluationResponse ("Problem Solving") ("no score given") ("a")).score = 5 ∧
    (parseEvaluationResponse ("Problem Solving") ("Score: 7/10") ("a")).score = (7 : ℕ) :=
  ⟨C4_score_paths.1 ("Problem Solving") ("technology") ("a short answer"),
   C4_score_paths.2.1 ("Problem Solving") ("no score given") ("a") (by decide),
   C4_score_paths.2.2 ("Problem Solving") ("Score: 7/10") ("a") 7 (by decide)⟩

/-- C5 counterexample: a 500-byte audio input does raise a ValueError inside
analyze_speech_delivery, but the method's own blanket handler catches it and
returns the fallback analysis — the caller receives a returned result, not a
raised ValueError. -/
theorem C5_counterexample :
    analyzeSpeechDeliveryTry ("technology") ("Engineer") 500 (Except.ok ("some text")) none =
      Except.error (.valueError ("Audio data too small: 500 bytes")) ∧
    analyzeSpeechDelivery ("technology") ("Engineer") 500 (Except.ok ("some text")) none =
      generateFallbackAnalysis ("technology") ("Engineer") 500
        ("Audio data too small: 500 bytes") none := by
  exact ⟨rfl, rfl⟩

/-- C5 (amended): for every audio input under 1000 bytes the try block of
analyze_speech_delivery raises a ValueError naming the size, the method's
handler converts it into the returned fallback analysis (never propagating
the exception), and that returned analysis has overall score 5 with all six
axes scored 5. -/
theorem C5_small_audio_returns_fallback :
    ∀ (industry jobTitle : String) (audio : Nat) (remote : Except String String)
      (ctx : Option SpeechContext), audio < 1000 →
      analyzeSpeechDeliveryTry industry jobTitle audio remote ctx =
        Except.error (.valueError
          ("Audio data too small: " ++ toString audio ++ " bytes")) ∧
      analyzeSpeechDelivery industry jobTitle audio remote ctx =
        generateFallbackAnalysis industry jobTitle audio
          ("Audio data too small: " ++ toString audio ++ " bytes") ctx ∧
      (analyzeSpeechDelivery industry jobTitle audio remote ctx).overall_score = 5 ∧
      (analyzeSpeechDelivery industry jobTitle audio remote ctx).detailed_scores.map
          (fun p => (p.1, p.2.score)) =
        [("pace_rhythm", 5), ("clarity_articulation", 5), ("confidence_authority", 5),
         ("professional_tone", 5), ("energy_engagement", 5), ("speech_patterns", 5)] := by
  intro industry jobTitle audio remote ctx h
  have h1 : analyzeSpeechDeliveryTry industry jobTitle audio remote ctx =
      Except.error (.valueError
        ("Audio data too small: " ++ toString audio ++ " bytes")) := by
    unfold analyzeSpeechDeliveryTry
    rw [if_pos h]
  have h2 : analyzeSpeechDelivery industry jobTitle audio remote ctx =
      generateFallbackAnalysis industry jobTitle audio
        ("Audio data too small: " ++ toString audio ++ " bytes") ctx := by
    unfold analyzeSpeechDelivery
    rw [h1]
    rfl
  refine ⟨h1, h2, ?_, ?_⟩
  · rw [h2]
    rfl
  · rw [h2]
    rfl

/-- Witness for C5_small_audio_returns_fallback at 500 bytes with a failing
remote call. -/
theorem C5_small_audio_witness :
    500 < 1000 ∧
    analyzeSpeechDelivery ("technology") ("Engineer") 500 (Except.error ("net down")) none =
      generateFallbackAnalysis ("technology") ("Engineer") 500
        ("Audio data too small: 500 bytes") none :=
  ⟨by decide,
   (C5_small_audio_returns_fallback ("technology") ("Engineer") 500
      (Except.error ("net down")) none (by decide)).2.1⟩

/-- C6: audio of fewer than 1000 bytes makes transcribe_audio_bytes return
the failure result (empty text, word count 0) without invoking the remote
call; 999 bytes fails the same way, while 1001 bytes always invokes the
remote call. -/
theorem C6_transcription_threshold :
    (∀ (audio : Nat) (mime : String) (remote : Except String String), audio < 1000 →
      (transcribeAudioBytes audio mime remote).2 = false ∧
      (transcribeAudioBytes audio mime remote).1.status = "failed" ∧
      (transcribeAudioBytes audio mime remote).1.transcribed_text = "" ∧
      (transcribeAudioBytes audio mime remote).1.word_count = 0) ∧
    (∀ (mime : String) (remote : Except String String),
      (transcribeAudioBytes 999 mime remote).2 = false ∧
      (transcribeAudioBytes 999 mime remote).1.status = "failed") ∧
    (∀ (mime : String) (remote : Except String String),
      (transcribeAudioBytes 1001 mime remote).2 = true) := by
  refine ⟨?_, ?_, ?_⟩
  · intro audio mime remote h
    have h1 : transcribeAudioBytes audio mime remote =
        (generateErrorResponse audio
          ("Audio data too small: " ++ toString audio ++
            " bytes. Need at least 1KB."), false) := by
      unfold transcribeAudioBytes
      rw [if_pos h]
    rw [h1]
    exact ⟨rfl, rfl, rfl, rfl⟩
  · intro mime remote
    have h1 : transcribeAudioBytes 999 mime remote =
        (generateErrorResponse 999
          ("Audio data too small: 999 bytes. Need at least 1KB."), false) := by
      unfold transcribeAudioBytes
      rw [if_pos (by omega : (999 : Nat) < 1000)]
      rfl
    rw [h1]
    exact ⟨rfl, rfl⟩
  · intro mime remote
    unfold transcribeAudioBytes
    rw [if_neg (by omega : ¬(1001 : Nat) < 1000)]
    rcases remote with e | t
    · rfl
    · by_cases ht : t = ""
      · simp only [ht]
        rfl
      · simp only [if_neg ht]

/-- Witness for C6_transcription_threshold at a 500-byte input. -/
theorem C6_transcription_witness :
    500 < 1000 ∧
    (transcribeAudioBytes 500 ("audio/wav") (Except.ok ("hello there friend"))).2 = false ∧
    (transcribeAudioBytes 500 ("audio/wav") (Except.ok ("hello there friend"))).1.status =
      "failed" :=
  ⟨by decide,
   (C6_transcription_threshold.1 500 ("audio/wav")
      (Except.ok ("hello there friend")) (by decide)).1,
   (C6_transcription_threshold.1 500 ("audio/wav")
      (Except.ok ("hello there friend")) (by decide)).2.1⟩

/-- Evaluation helper: round-half-even of 10x when the fractional part is
below one half. -/
theorem pyRound1_eq_low (x : ℚ) (f : ℤ) (hf : ⌊10 * x⌋ = f)
    (h : 10 * x - (f : ℚ) < 1 / 2) : pyRound1 x = (f : ℚ) / 10 := by
  simp only [pyRound1, halfEvenInt]
  rw [hf, if_pos h]

/-- Evaluation helper: round-half-even of 10x when the fractional part is
above one half. -/
theorem pyRound1_eq_high (x : ℚ) (f : ℤ) (hf : ⌊10 * x⌋ = f)
    (h : 1 / 2 < 10 * x - (f : ℚ)) : pyRound1 x = ((f + 1 : ℤ) : ℚ) / 10 := by
  simp only [pyRound1, halfEvenInt]
  rw [hf, if_neg (by linarith), if_pos h]

/-- Modelled from the spec: the five checks as the spec words them, with
the vocabulary-diversity check read literally as "diversity greater than
one third of the word count" (real division), for comparison with the
source's max(1, word_count // 3) integer threshold. -/
def transcriptionChecksSpec (text : String) (info : AudioInfo) : ValidationChecks :=
  let wordCount := pyWordCount text
  { min_words := decide (wordCount ≥ 3)
    reasonable_length := decide (10 ≤ text.length ∧ text.length ≤ 2000)
    has_punctuation := text.data.any (fun c => c = '.' || c = '!' || c = '?')
    not_repetitive :=
      decide ((((pySplit (pyLower text.data)).dedup.length : ℕ) : ℚ) > (wordCount : ℚ) / 3)
    duration_match := decide (info.estimated_duration > 1) }

/-- C7 counterexample: on the one-word transcript "Hi" the source's
not_repetitive check (distinct > max(1, wc // 3), i.e. 1 > 1) fails while
the spec's literal reading (1 > 1/3) passes, so the code's confidence is
1/5 where the claimed fraction of the spec's five checks is 2/5. -/
theorem C7_counterexample :
    (validateTranscription ("Hi") (analyzeAudioData 40000 ("audio/wav"))).confidence =
      1 / 5 ∧
    ((transcriptionChecksSpec ("Hi")
        (analyzeAudioData 40000 ("audio/wav"))).passed : ℚ) / 5 = 2 / 5 ∧
    (validateTranscription ("Hi") (analyzeAudioData 40000 ("audio/wav"))).confidence ≠
      ((transcriptionChecksSpec ("Hi")
        (analyzeAudioData 40000 ("audio/wav"))).passed : ℚ) / 5 := by
  have hdur : (analyzeAudioData 40000 ("audio/wav")).estimated_duration = 5 / 2 := by
    show pyRound1 ((40000 : ℚ) / 16000) = 5 / 2
    have h : (40000 : ℚ) / 16000 = ((25 : ℤ) : ℚ) / 10 := by norm_num
    rw [h, pyRound1_tenths]
    norm_num
  have hdm : (transcriptionChecks ("Hi") (analyzeAudioData 40000 ("audio/wav"))).duration_match
      = true := by
    show decide ((analyzeAudioData 40000 ("audio/wav")).estimated_duration > 1) = true
    rw [hdur]
    simp only [decide_eq_true_eq]
    norm_num
  have hpassed : (transcriptionChecks ("Hi") (analyzeAudioData 40000 ("audio/wav"))).passed
      = 1 := by
    unfold ValidationChecks.passed
    rw [hdm]
    rw [show (transcriptionChecks ("Hi")
        (analyzeAudioData 40000 ("audio/wav"))).min_words = false from rfl]
    rw [show (transcriptionChecks ("Hi")
        (analyzeAudioData 40000 ("audio/wav"))).reasonable_length = false from rfl]
    rw [show (transcriptionChecks ("Hi")
        (analyzeAudioData 40000 ("audio/wav"))).has_punctuation = false from rfl]
    rw [show (transcriptionChecks ("Hi")
        (analyzeAudioData 40000 ("audio/wav"))).not_repetitive = false from rfl]
    rfl
  have hdm2 : (transcriptionChecksSpec ("Hi")
      (analyzeAudioData 40000 ("audio/wav"))).duration_match = true := by
    show decide ((analyzeAudioData 40000 ("audio/wav")).estimated_duration > 1) = true
    rw [hdur]
    simp only [decide_eq_true_eq]
    norm_num
  have hnr2 : (transcriptionChecksSpec ("Hi")
      (analyzeAudioData 40000 ("audio/wav"))).not_repetitive = true := by
    show decide ((((pySplit (pyLower ("Hi").data)).dedup.length : ℕ) : ℚ) >
      ((pyWordCount ("Hi") : ℕ) : ℚ) / 3) = true
    rw [show (pySplit (pyLower ("Hi").data)).dedup.length = 1 from rfl]
    rw [show pyWordCount ("Hi") = 1 from rfl]
    simp only [decide_eq_true_eq]
    norm_num
  have hpassed2 : (transcriptionChecksSpec ("Hi")
      (analyzeAudioData 40000 ("audio/wav"))).passed = 2 := by
    unfold ValidationChecks.passed
    rw [hdm2, hnr2]
    rw [show (transcriptionChecksSpec ("Hi")
        (analyzeAudioData 40000 ("audio/wav"))).min_words = false from rfl]
    rw [show (transcriptionChecksSpec ("Hi")
        (analyzeAudioData 40000 ("audio/wav"))).reasonable_length = false from rfl]
    rw [show (transcriptionChecksSpec ("Hi")
        (analyzeAudioData 40000 ("audio/wav"))).has_punctuation = false from rfl]
    rfl
  have hconf : (validateTranscription ("Hi")
      (analyzeAudioData 40000 ("audio/wav"))).confidence =
      ((transcriptionChecks ("Hi") (analyzeAudioData 40000 ("audio/wav"))).passed : ℚ) / 5 := by
    unfold validateTranscription
    rw [if_neg (by decide : ¬(pyStripStr ("Hi") = ""))]
    rfl
  refine ⟨?_, ?_, ?_⟩
  · rw [hconf, hpassed]
    norm_num
  · rw [hpassed2]
    norm_num
  · rw [hconf, hpassed, hpassed2]
    norm_num

/-- C7 (amended): on every non-empty transcript _validate_transcription
evaluates the five checks of transcriptionChecks (with the
vocabulary-diversity threshold max(1, word_count // 3)), sets confidence to
the fraction of checks passed, and marks the result valid exactly when at
least 3 of the 5 checks pass (confidence at least 0.6); a transcript
passing all 5 checks gets confidence 1.0 and valid, one passing 2 of 5 gets
confidence 0.4 and invalid. -/
theorem C7_validation :
    (∀ (text : String) (info : AudioInfo), pyStripStr text ≠ "" →
      (validateTranscription text info).confidence =
        ((transcriptionChecks text info).passed : ℚ) / 5 ∧
      ((validateTranscription text info).valid = true ↔
        3 ≤ (transcriptionChecks text info).passed)) ∧
    ((validateTranscription ("I solved the problem quickly today.")
        (analyzeAudioData 40000 ("audio/wav"))).confidence = 1 ∧
      (validateTranscription ("I solved the problem quickly today.")
        (analyzeAudioData 40000 ("audio/wav"))).valid = true) ∧
    ((validateTranscription ("Hi there.") (analyzeAudioData 900 ("audio/wav"))).confidence =
        2 / 5 ∧
      (validateTranscription ("Hi there.") (analyzeAudioData 900 ("audio/wav"))).valid =
        false) := by
  have hgen : ∀ (text : String) (info : AudioInfo), pyStripStr text ≠ "" →
      validateTranscription text info =
        .checked (decide (((transcriptionChecks text info).passed : ℚ) / 5 ≥ 6 / 10))
          (((transcriptionChecks text info).passed : ℚ) / 5) (pyWordCount text)
          info.estimated_duration (transcriptionChecks text info) := by
    intro text info h
    unfold validateTranscription
    rw [if_neg h]
  have hfrac : ∀ p : ℕ, ((6 : ℚ) / 10 ≤ (p : ℚ) / 5 ↔ 3 ≤ p) := by
    intro p
    rw [div_le_div_iff₀ (by norm_num) (by norm_num)]
    constructor
    · intro h
      by_contra hlt
      push_neg at hlt
      interval_cases p <;> norm_num at h
    · intro h
      have : (3 : ℚ) ≤ (p : ℚ) := by exact_mod_cast h
      linarith
  refine ⟨?_, ?_, ?_⟩
  · intro text info h
    rw [hgen text info h]
    refine ⟨rfl, ?_⟩
    show decide _ = true ↔ _
    simp only [decide_eq_true_eq, ge_iff_le]
    exact hfrac _
  · have hdur : (analyzeAudioData 40000 ("audio/wav")).estimated_duration = 5 / 2 := by
      show pyRound1 ((40000 : ℚ) / 16000) = 5 / 2
      have h : (40000 : ℚ) / 16000 = ((25 : ℤ) : ℚ) / 10 := by norm_num
      rw [h, pyRound1_tenths]
      norm_num
    have hdm : (transcriptionChecks ("I solved the problem quickly today.")
        (analyzeAudioData 40000 ("audio/wav"))).duration_match = true := by
      show decide ((analyzeAudioData 40000 ("audio/wav")).estimated_duration > 1) = true
      rw [hdur]
      simp only [decide_eq_true_eq]
      norm_num
    have hpassed : (transcriptionChecks ("I solved the problem quickly today.")
        (analyzeAudioData 40000 ("audio/wav"))).passed = 5 := by
      unfold ValidationChecks.passed
      rw [hdm]
      rw [show (transcriptionChecks ("I solved the problem quickly today.")
          (analyzeAudioData 40000 ("audio/wav"))).min_words = true from rfl]
      rw [show (transcriptionChecks ("I solved the problem quickly today.")
          (analyzeAudioData 40000 ("audio/wav"))).reasonable_length = true from rfl]
      rw [show (transcriptionChecks ("I solved the problem quickly today.")
          (analyzeAudioData 40000 ("audio/wav"))).has_punctuation = true from rfl]
      rw [show (transcriptionChecks ("I solved the problem quickly today.")
          (analyzeAudioData 40000 ("audio/wav"))).not_repetitive = true from rfl]
      rfl
    rw [hgen ("I solved the problem quickly today.") (analyzeAudioData 40000 ("audio/wav"))
      (by decide)]
    constructor
    · show ((transcriptionChecks ("I solved the problem quickly today.")
          (analyzeAudioData 40000 ("audio/wav"))).passed : ℚ) / 5 = 1
      rw [hpassed]
      norm_num
    · show decide _ = true
      rw [hpassed]
      simp only [decide_eq_true_eq]
      norm_num
  · have hdur : (analyzeAudioData 900 ("audio/wav")).estimated_duration = 1 / 10 := by
      show pyRound1 ((900 : ℚ) / 16000) = 1 / 10
      have hf : ⌊10 * ((900 : ℚ) / 16000)⌋ = 0 := by
        rw [show 10 * ((900 : ℚ) / 16000) = 9 / 16 by norm_num]
        rw [Int.floor_eq_zero_iff]
        constructor <;> norm_num
      rw [pyRound1_eq_high _ 0 hf
        (by rw [show 10 * ((900 : ℚ) / 16000) = 9 / 16 by norm_num]; norm_num)]
      norm_num
    have hdm : (transcriptionChecks ("Hi there.")
        (analyzeAudioData 900 ("audio/wav"))).duration_match = false := by
      show decide ((analyzeAudioData 900 ("audio/wav")).estimated_duration > 1) = false
      rw [hdur]
      simp only [decide_eq_false_iff_not]
      norm_num
    have hpassed : (transcriptionChecks ("Hi there.")
        (analyzeAudioData 900 ("audio/wav"))).passed = 2 := by
      unfold ValidationChecks.passed
      rw [hdm]
      rw [show (transcriptionChecks ("Hi there.")
          (analyzeAudioData 900 ("audio/wav"))).min_words = false from rfl]
      rw [show (transcriptionChecks ("Hi there.")
          (analyzeAudioData 900 ("audio/wav"))).reasonable_length = false from rfl]
      rw [show (transcriptionChecks ("Hi there.")
          (analyzeAudioData 900 ("audio/wav"))).has_punctuation = true from rfl]
      rw [show (transcriptionChecks ("Hi there.")
          (analyzeAudioData 900 ("audio/wav"))).not_repetitive = true from rfl]
      rfl
    rw [hgen ("Hi there.") (analyzeAudioData 900 ("audio/wav")) (by decide)]
    constructor
    · show ((transcriptionChecks ("Hi there.")
          (analyzeAudioData 900 ("audio/wav"))).passed : ℚ) / 5 = 2 / 5
      rw [hpassed]
      norm_num
    · show decide _ = false
      rw [hpassed]
      simp only [decide_eq_false_iff_not]
      norm_num

/-- Witness for C7_validation on the non-empty transcript "Hi there.". -/
theorem C7_validation_witness :
    pyStripStr ("Hi there.") ≠ "" ∧
    (validateTranscription ("Hi there.")
        (analyzeAudioData 900 ("audio/wav"))).confidence =
      ((transcriptionChecks ("Hi there.")
          (analyzeAudioData 900 ("audio/wav"))).passed : ℚ) / 5 :=
  ⟨by decide,
   (C7_validation.1 ("Hi there.") (analyzeAudioData 900 ("audio/wav")) (by decide)).1⟩

/-- Filtering the competencies with at least two attempts out of those with
at least one is the same as filtering them out of all of them. -/
theorem filter_qual (progress : List (String × List ProgressEntry)) :
    (progress.filter (fun p => ¬p.2.isEmpty)).filter (fun p => p.2.length ≥ 2) =
      progress.filter (fun p => p.2.length ≥ 2) := by
  rw [List.filter_filter]
  apply List.filter_congr
  intro a _
  cases h2 : a.2 <;> simp [h2]

/-- C8 counterexample: a single qualifying competency (fewer than 2) already
produces a computed trend — "Problem Solving" scored [4,5,6,8] alone yields
"improving", not the claimed "no_data". -/
theorem C8_counterexample :
    ([("Problem Solving",
        [(⟨4, 0, ""⟩ : ProgressEntry), ⟨5, 1, ""⟩, ⟨6, 2, ""⟩, ⟨8, 3, ""⟩])].filter
      (fun p => p.2.length ≥ 2)).length = 1 ∧
    (getProgressSummary [("Problem Solving",
        [(⟨4, 0, ""⟩ : ProgressEntry), ⟨5, 1, ""⟩, ⟨6, 2, ""⟩, ⟨8, 3, ""⟩])]).overall_trend =
      "improving" ∧
    ("improving" : String) ≠ "no_data" := by
  refine ⟨by decide, ?_, by decide⟩
  unfold getProgressSummary
  norm_num [List.filter, List.map, List.getLastD, List.headD, List.sum, ProgressEntry.score]

/-- C8 (amended): the overall trend compares the average of the last scores
of the competencies with at least 2 attempts against the average of their
first scores (improving/declining beyond 0.5, else stable), and is
"no_data" exactly when no such competency exists (not: fewer than two); a
single competency scored [4,5,6,8] yields latest 8, best 8, improvement 4
and trend "improving". -/
theorem C8_progress_trend :
    (∀ progress : List (String × List ProgressEntry),
      (getProgressSummary progress).overall_trend =
        if progress.filter (fun p => p.2.length ≥ 2) = [] then "no_data"
        else
          (let qual := progress.filter (fun p => p.2.length ≥ 2)
           let recentAvg :=
             (qual.map (fun p => (p.2.map ProgressEntry.score).getLastD 0)).sum /
               (qual.length : ℚ)
           let earlyAvg :=
             (qual.map (fun p => (p.2.map ProgressEntry.score).headD 0)).sum /
               (qual.length : ℚ)
           if recentAvg > earlyAvg + 1 / 2 then "improving"
           else if recentAvg < earlyAvg - 1 / 2 then "declining"
           else "stable")) ∧
    (∀ progress : List (String × List ProgressEntry),
      ((getProgressSummary progress).overall_trend = "no_data" ↔
        progress.filter (fun p => p.2.length ≥ 2) = [])) ∧
    ((competencyStats [4, 5, 6, 8]).latest_score = 8 ∧
      (competencyStats [4, 5, 6, 8]).best_score = 8 ∧
      (competencyStats [4, 5, 6, 8]).improvement = 4) ∧
    ((getProgressSummary [("Problem Solving",
        [(⟨4, 0, ""⟩ : ProgressEntry), ⟨5, 1, ""⟩, ⟨6, 2, ""⟩, ⟨8, 3, ""⟩])]).competencies =
      [("Problem Solving", competencyStats [4, 5, 6, 8])]) := by
  have h1 : ∀ progress : List (String × List ProgressEntry),
      (getProgressSummary progress).overall_trend =
        if progress.filter (fun p => p.2.length ≥ 2) = [] then "no_data"
        else
          (let qual := progress.filter (fun p => p.2.length ≥ 2)
           let recentAvg :=
             (qual.map (fun p => (p.2.map ProgressEntry.score).getLastD 0)).sum /
               (qual.length : ℚ)
           let earlyAvg :=
             (qual.map (fun p => (p.2.map ProgressEntry.score).headD 0)).sum /
               (qual.length : ℚ)
           if recentAvg > earlyAvg + 1 / 2 then "improving"
           else if recentAvg < earlyAvg - 1 / 2 then "declining"
           else "stable") := by
    intro progress
    simp only [getProgressSummary]
    rw [filter_qual]
    by_cases hq : progress.filter (fun p => p.2.length ≥ 2) = []
    · simp [hq]
    · rw [if_neg hq]
      simp only [List.isEmpty_iff, List.map_eq_nil_iff, hq, not_false_eq_true, and_self,
        if_true, List.length_map]
  refine ⟨h1, ?_, ⟨rfl, ?_, ?_⟩, rfl⟩
  · intro progress
    rw [h1 progress]
    by_cases hq : progress.filter (fun p => p.2.length ≥ 2) = []
    · simp [hq]
    · rw [if_neg hq]
      constructor
      · intro hs
        exfalso
        dsimp only at hs
        split_ifs at hs <;> exact absurd hs (by decide)
      · intro hs
        exact absurd hs hq
  · show List.foldl max ((4 : ℚ)) [4, 5, 6, 8] = 8
    norm_num [List.foldl]
  · show (if (4 : ℕ) > 1 then (8 : ℚ) - 4 else 0) = 4
    norm_num

/-- One iteration of the essential-competency inclusion loop. -/
def essStep (acc : List String) (e : String) : List String :=
  if acc.contains e then acc else acc ++ [e]

/-- The loop over the three essentials, unrolled. -/
theorem addEssentials_eq (sel : List String) :
    addEssentials sel =
      essStep (essStep (essStep sel ("Problem Solving")) ("Technical Expertise"))
        ("Analytical Thinking") := rfl

/-- One inclusion step grows the selection by at most one entry. -/
theorem essStep_length (acc : List String) (e : String) :
    (essStep acc e).length ≤ acc.length + 1 := by
  unfold essStep
  split_ifs <;> simp

/-- After its inclusion step, the essential competency is present. -/
theorem essStep_mem_self (acc : List String) (e : String) : e ∈ essStep acc e := by
  unfold essStep
  split_ifs with h
  · exact List.elem_iff.mp h
  · exact List.mem_append_right _ (List.mem_singleton_self e)

/-- With at most six selected competencies, "Technical Expertise" survives
the force-include loop and the final truncation to eight. -/
theorem te_mem_take8 (sel : List String) (h : sel.length ≤ 6) :
    "Technical Expertise" ∈ (addEssentials sel).take 8 := by
  rw [addEssentials_eq]
  have h2 : (essStep (essStep sel ("Problem Solving")) ("Technical Expertise")).length ≤ 8 := by
    have ha := essStep_length sel ("Problem Solving")
    have hb := essStep_length (essStep sel ("Problem Solving")) ("Technical Expertise")
    omega
  have hTE : "Technical Expertise" ∈
      essStep (essStep sel ("Problem Solving")) ("Technical Expertise") :=
    essStep_mem_self _ _
  by_cases hc : (essStep (essStep sel ("Problem Solving"))
      ("Technical Expertise")).contains ("Analytical Thinking")
  · have he : essStep (essStep (essStep sel ("Problem Solving")) ("Technical Expertise"))
        ("Analytical Thinking") =
        essStep (essStep sel ("Problem Solving")) ("Technical Expertise") := if_pos hc
    rw [he, List.take_of_length_le h2]
    exact hTE
  · have he : essStep (essStep (essStep sel ("Problem Solving")) ("Technical Expertise"))
        ("Analytical Thinking") =
        essStep (essStep sel ("Problem Solving")) ("Technical Expertise") ++
          ["Analytical Thinking"] := if_neg hc
    rw [he, List.take_append_eq_append_take, List.take_of_length_le h2]
    exact List.mem_append_left _ hTE

/-- C9: for every job-description text and AI analysis, the competency list
of _extract_competencies contains "Technical Expertise" (force-included even
with zero keyword hits) and has at most 8 entries; with no keyword hit at
all it is exactly the three essential competencies. -/
theorem C9_essential_competencies :
    (∀ (text : String) (ai : AiAnalysis),
      "Technical Expertise" ∈ extractCompetencies text ai ∧
      (extractCompetencies text ai).length ≤ 8) ∧
    extractCompetencies "" (AiAnalysis.mk [] [] []) =
      ["Problem Solving", "Technical Expertise", "Analytical Thinking"] := by
  refine ⟨?_, rfl⟩
  intro text ai
  constructor
  · unfold extractCompetencies
    exact te_mem_take8 _ (List.length_take_le 6 _)
  · unfold extractCompetencies
    exact List.length_take_le 8 _
